import Mathlib

/-!
Verification of the specification of `src/flask_api.py`, a small Flask
backend that serves per-user CSV datasets stored in Supabase object
storage.  The Python source is shallowly embedded below: each Flask
handler becomes a pure Lean function of an explicit environment record
(standing for the external collaborators — Supabase storage, the
credential table, chardet, and pandas' CSV parser and `describe`) and an
explicit request record.  Handlers that can raise an uncaught Python
exception return an `Outcome` that distinguishes a normal HTTP response
from an unhandled exception.
-/

namespace FlaskApi

/-- Raw bytes downloaded from object storage.  The Python code never
inspects the bytes itself (all inspection happens inside chardet and
pandas), so an opaque byte list suffices. -/
abbrev ByteData := List Nat

/-- The decoded in-memory table produced by `pd.read_csv`: ordered column
names, rows of cells (each cell kept in its `astype(str)` string form,
which is the only form the embedded handlers ever consume), and the
pandas dtype string per column (`df.dtypes.astype(str)`). -/
structure Table where
  columns : List String
  rows : List (List String)
  dtypes : List (String × String)
deriving DecidableEq, Repr

/-- The two classes of exception distinguished by the fallback loop of
`load_csv_from_supabase` (lines 399-404): `UnicodeDecodeError` versus any
other exception, which are formatted differently into the error log. -/
inductive ParseErr where
  | unicodeDecodeError (msg : String)
  | otherError (msg : String)
deriving DecidableEq, Repr

/-- The external collaborators of the Flask app, as functions:
`download` is `supabase.storage.from_('datasets').download` (an `Except`
error stands for a raised exception); `chardetAvailable` is whether
`import chardet` succeeds; `detect` is `chardet.detect(...)['encoding']`
(`none` when detection reports no encoding); `parseStrict` is the
`pd.read_csv` call at line 375 made with the detected encoding (`none`
for a raised exception); `parseLenient` is the `pd.read_csv` call at
lines 390-396 made with a fallback encoding and
`encoding_errors='replace'`; `keyLookup` is the
`supabase.table('api_keys')` query of `require_api_key` (outer `Except`
for a raised exception, inner `Option` for whether `result.data` is
nonempty, carrying the `user_id`); `describe` is `df.describe().to_dict()`
with its float entries kept as strings. -/
structure Env where
  download : String → Except String ByteData
  chardetAvailable : Bool
  detect : ByteData → Option String
  parseStrict : String → ByteData → Option Table
  parseLenient : String → ByteData → Except ParseErr Table
  keyLookup : String → Except String (Option String)
  describe : Table → List (String × List (String × String))

/-- The request data consumed by the handlers: the `X-API-Key` header and
the `bucket_path`, `column`, `value` and `n` query parameters
(`request.args.get` returns `None` for an absent parameter). -/
structure Request where
  apiKey : Option String
  bucket_path : Option String
  column : Option String
  value : Option String
  n : Option Int

/-- The JSON bodies produced by the handlers. -/
inductive RespBody where
  | err (msg : String)
  | records (rs : List (List (String × String)))
  | summaryB (total_rows total_columns : Nat) (columns : List String)
      (data_types : List (String × String))
  | statsB (stats : List (String × List (String × String)))
  | keyB (api_key message user_id : String)
  | uniqueB (column : String) (unique_values : List String) (count : Nat)
deriving DecidableEq, Repr

/-- An HTTP response: status code and JSON body. -/
structure Response where
  status : Nat
  body : RespBody
deriving DecidableEq, Repr

/-- A handler either returns a response or lets a Python exception escape
(which Flask then surfaces as a 500 Internal Server Error). -/
inductive Outcome where
  | resp (r : Response)
  | unhandled (exc : String)
deriving DecidableEq, Repr

/-- Python `s.startswith(p)`: the characters of `p` form a prefix of the
characters of `s`. -/
def startswith (p s : String) : Bool := p.data.isPrefixOf s.data

/-- The inline ownership check of `get_data_summary` (line 96) and
`get_head` (line 118): `bucket_path.startswith(f"user_{user_id}/")`. -/
def ownsPath (uid path : String) : Bool := startswith ("user_" ++ uid ++ "/") path

/-- Python truthiness test `not x` for an optional string: `None` and the
empty string are falsy. -/
def pyFalsy (o : Option String) : Bool :=
  match o with
  | none => true
  | some s => s.isEmpty

/-- The message of the `AttributeError` raised by
`bucket_path.startswith(...)` when `bucket_path` is `None`. -/
def attributeErrorNone : String :=
  "AttributeError: 'NoneType' object has no attribute 'startswith'"

/-! ## The encoding-resolving loader (`load_csv_from_supabase`, lines 359-415) -/

/-- The fixed fallback encoding list of line 384. -/
def fallbackEncodings : List String :=
  ["utf-8", "latin1", "iso-8859-1", "cp1252", "utf-16", "ascii"]

/-- How the fallback loop formats a failed attempt into its `errors` list
(lines 399-404): `f"{encoding}: {str(e)}"` for a `UnicodeDecodeError`,
`f"{encoding}: Unexpected error: {str(e)}"` otherwise. -/
def formatAttemptErr (enc : String) : ParseErr → String
  | .unicodeDecodeError m => enc ++ ": " ++ m
  | .otherError m => enc ++ ": Unexpected error: " ++ m

/-- The `for encoding in encodings` loop of lines 387-404: try each
encoding in order with the lenient parse; return the first success
together with the `errors` accumulated so far, or `none` with the full
error log when every attempt fails. -/
def fallback_loop (env : Env) (bytes : ByteData) :
    List String → List String → Option Table × List String
  | [], errs => (none, errs)
  | enc :: rest, errs =>
    match env.parseLenient enc bytes with
    | .ok df => (some df, errs)
    | .error e => fallback_loop env bytes rest (errs ++ [formatAttemptErr enc e])

/-- The chardet detection attempt of lines 368-381: when chardet imports
and reports an encoding, try a full parse with it; `none` when chardet is
unavailable, reports no encoding, or the detected-encoding parse raises. -/
def detect_phase (env : Env) (bytes : ByteData) : Option Table :=
  if env.chardetAvailable then
    match env.detect bytes with
    | some enc => env.parseStrict enc bytes
    | none => none
  else none

/-- Decoding of a downloaded byte blob: the detection attempt first, then
the fallback loop; `none` when every attempt fails (the function prints
the error log and returns `None`, line 411). -/
def decode_bytes (env : Env) (bytes : ByteData) : Option Table :=
  match detect_phase env bytes with
  | some df => some df
  | none => (fallback_loop env bytes fallbackEncodings []).1

/-- The per-attempt error log printed at lines 408-410 when every
encoding fails (the accumulated `errors` list of the fallback loop). -/
def decode_error_log (env : Env) (bytes : ByteData) : List String :=
  (fallback_loop env bytes fallbackEncodings []).2

/-- `load_csv_from_supabase(bucket_path=None)` (lines 359-415): `None`
path returns `None` before any storage access; a storage exception is
caught by the outer `try` and returns `None`; otherwise the downloaded
bytes are decoded. -/
def load_csv_from_supabase (env : Env) (bucket_path : Option String) : Option Table :=
  match bucket_path with
  | none => none
  | some path =>
    match env.download path with
    | .error _ => none
    | .ok bytes => decode_bytes env bytes

/-! ## Authentication decorator and handlers -/

/-- The `require_api_key` decorator (lines 29-47): no (or empty) header is
401 "No API key provided"; a lookup exception is 500; an unknown key is
401 "Invalid API key"; otherwise the wrapped handler runs with
`request.user_id` bound to the `user_id` the key maps to. -/
def require_api_key (env : Env) (req : Request) (handler : String → Outcome) : Outcome :=
  match req.apiKey with
  | none => .resp ⟨401, .err "No API key provided"⟩
  | some k =>
    if k.isEmpty then .resp ⟨401, .err "No API key provided"⟩
    else
      match env.keyLookup k with
      | .error _ => .resp ⟨500, .err "Error verifying API key"⟩
      | .ok none => .resp ⟨401, .err "Invalid API key"⟩
      | .ok (some uid) => handler uid

/-- Body of `get_data_summary` (lines 89-109), run after the decorator:
`bucket_path` absent raises `AttributeError` on `None.startswith`
(uncaught); a path failing the ownership check is 403; a failed load is
404; otherwise the summary of the table. -/
def get_data_summary_body (env : Env) (req : Request) (uid : String) : Outcome :=
  match req.bucket_path with
  | none => .unhandled attributeErrorNone
  | some path =>
    if !ownsPath uid path then .resp ⟨403, .err "Unauthorized access to dataset"⟩
    else
      match load_csv_from_supabase env (some path) with
      | none => .resp ⟨404, .err "No dataset found in Supabase storage"⟩
      | some df =>
        .resp ⟨200, .summaryB df.rows.length df.columns.length df.columns df.dtypes⟩

/-- `GET /api/data/summary`: the decorator wrapping the body. -/
def get_data_summary (env : Env) (req : Request) : Outcome :=
  require_api_key env req (get_data_summary_body env req)

/-- `df.head(n)` row selection of pandas: the first `n` rows for `n ≥ 0`,
all but the last `|n|` rows for negative `n`. -/
def pandasHead (rows : List (List String)) (n : Int) : List (List String) :=
  if 0 ≤ n then rows.take n.toNat else rows.take (rows.length - (-n).toNat)

/-- `to_dict(orient='records')` for one row: the row as a column-name to
cell mapping, in column order. -/
def rowRecord (df : Table) (r : List String) : List (String × String) := df.columns.zip r

/-- Body of `get_head` (lines 111-127), run after the decorator: same
guard sequence as the summary handler, then the first
`n` (default 5) rows as records. -/
def get_head_body (env : Env) (req : Request) (uid : String) : Outcome :=
  match req.bucket_path with
  | none => .unhandled attributeErrorNone
  | some path =>
    if !ownsPath uid path then .resp ⟨403, .err "Unauthorized access to dataset"⟩
    else
      match load_csv_from_supabase env (some path) with
      | none => .resp ⟨404, .err "No dataset found in Supabase storage"⟩
      | some df =>
        .resp ⟨200, .records ((pandasHead df.rows (req.n.getD 5)).map (rowRecord df))⟩

/-- `GET /api/data/head`: the decorator wrapping the body. -/
def get_head (env : Env) (req : Request) : Outcome :=
  require_api_key env req (get_head_body env req)

/-! ## The filter endpoint and its match semantics

`filter_data` (line 147) selects rows with
`df[column].astype(str).str.contains(value, case=False, na=False)`.
Pandas `str.contains` with its default `regex=True` runs `re.search` with
`re.IGNORECASE` on each cell.  The embedding below models the fragment of
Python regular expressions whose patterns are built from literal
characters and the metacharacter `.` (match any one character); the
theorems about `filter_data` only ever instantiate `value` inside this
fragment, where the model agrees with `re.search`. -/

/-- Python's regex metacharacters: a pattern containing none of these is
matched purely literally by `re.search`. -/
def regexMetachars : List Char :=
  ['.', '^', '$', '*', '+', '?', '{', '}', '[', ']', '\\', '|', '(', ')']

/-- Case-insensitive match of a literal-and-dot pattern against the start
of a text: `.` consumes any one character, a literal consumes one
case-insensitively equal character. -/
def matchesFrom : List Char → List Char → Bool
  | [], _ => true
  | _ :: _, [] => false
  | p :: ps, c :: cs => (p == '.' || p.toLower == c.toLower) && matchesFrom ps cs

/-- `re.search` over the literal-and-dot fragment: the pattern matches
starting at some position of the text. -/
def reSearch (p : List Char) : List Char → Bool
  | [] => matchesFrom p []
  | c :: cs => matchesFrom p (c :: cs) || reSearch p cs

/-- The cell predicate of `filter_data` line 147:
`str.contains(value, case=False, na=False)` on the `astype(str)` cell. -/
def str_contains (value cell : String) : Bool := reSearch value.data cell.data

/-- Substring test on character lists: `v` occurs contiguously in the
text. -/
def isSubseg (v : List Char) : List Char → Bool
  | [] => v.isEmpty
  | c :: cs => v.isPrefixOf (c :: cs) || isSubseg v cs

/-- Case-insensitive substring containment, the relation named by the
specification ("case-insensitive substring match of `value` against the
string form of each cell"), written from the specification's words for
comparison with `str_contains`. -/
def containsCI (value cell : String) : Bool :=
  isSubseg (value.data.map Char.toLower) (cell.data.map Char.toLower)

/-- `df[column]` cell access for one row: the cell at the column's
position (columns are unique in a parsed frame). -/
def cellAt (df : Table) (column : String) (r : List String) : String :=
  r.getD (df.columns.indexOf column) ""

/-- `GET /api/data/filter` (`filter_data`, lines 129-148).  The route has
no `require_api_key` decorator and no ownership check: it loads the
dataset first, then validates `column`/`value` presence, then the column
name, then returns the first 50 rows whose cell matches. -/
def filter_data (env : Env) (req : Request) : Outcome :=
  match load_csv_from_supabase env req.bucket_path with
  | none => .resp ⟨404, .err "No dataset found in Supabase storage"⟩
  | some df =>
    if pyFalsy req.column || pyFalsy req.value then
      .resp ⟨400, .err "Both column and value parameters are required"⟩
    else
      let column := req.column.getD ""
      let value := req.value.getD ""
      if !df.columns.contains column then
        .resp ⟨400, .err ("Column '" ++ column ++ "' not found")⟩
      else
        .resp ⟨200, .records (((df.rows.filter
          (fun r => str_contains value (cellAt df column r))).take 50).map (rowRecord df))⟩

/-- `GET /api/data/stats` (`get_stats`, lines 150-160).  No decorator, no
ownership check: load, then return `df.describe().to_dict()`. -/
def get_stats (env : Env) (req : Request) : Outcome :=
  match load_csv_from_supabase env req.bucket_path with
  | none => .resp ⟨404, .err "No dataset found in Supabase storage"⟩
  | some df => .resp ⟨200, .statsB (env.describe df)⟩

/-- `df[column].unique().tolist()`: distinct values in first-occurrence
order. -/
def uniqueFirstOccurrence (l : List String) : List String :=
  l.foldl (fun acc x => if acc.contains x then acc else acc ++ [x]) []

/-- `GET /api/data/unique/<column>` (`get_unique_values`, lines 162-179).
No decorator, no ownership check. -/
def get_unique_values (env : Env) (req : Request) (column : String) : Outcome :=
  match load_csv_from_supabase env req.bucket_path with
  | none => .resp ⟨404, .err "No dataset found in Supabase storage"⟩
  | some df =>
    if !df.columns.contains column then
      .resp ⟨400, .err ("Column '" ++ column ++ "' not found")⟩
    else
      let vals := uniqueFirstOccurrence (df.rows.map (cellAt df column))
      .resp ⟨200, .uniqueB column vals vals.length⟩

/-! ## Key issuance (`generate_api_key`, lines 49-87) -/

/-- External collaborators of the key-issuance route: `getUser` is
`supabase.auth.get_user(token).user.id` (`none` for a raised exception,
i.e. a rejected token); `newKey` is the `secrets.token_urlsafe(32)` value
drawn for this request. -/
structure KeyEnv where
  getUser : String → Option String
  newKey : String

/-- The `NameError` message produced by line 59, `console.log(token)`:
`console` is a JavaScript global that does not exist in Python, so the
line raises `NameError` unconditionally. -/
def consoleLogNameError : String := "name 'console' is not defined"

/-- Line 59, `console.log(token)`: always raises `NameError`.  The raise
happens after the Bearer-header check but outside the inner `try`, so it
is caught by the outer handler `except`, which returns
`jsonify({"error": str(e)}), 500`. -/
def console_log : Except String Unit := .error consoleLogNameError

/-- Splitting of a character list at each space, keeping empty pieces —
the semantics of Python `str.split(' ')`. -/
def splitSpaceAux : List Char → List Char → List (List Char)
  | [], acc => [acc.reverse]
  | c :: cs, acc =>
    if c = ' ' then acc.reverse :: splitSpaceAux cs [] else splitSpaceAux cs (c :: acc)

/-- Python `s.split(' ')`. -/
def pySplitSpace (s : String) : List String :=
  (splitSpaceAux s.data []).map String.mk

/-- `auth_header.split(' ')[1]`: the token following `"Bearer "`. -/
def bearerToken (h : String) : String := (pySplitSpace h).getD 1 ""

/-- `POST /api/generate-key` (lines 49-87): missing or non-`Bearer `
header is 401; then `console.log(token)` raises `NameError`, caught by
the outer `except` as a 500 whose body is `str(e)`.  The token exchange,
key generation and success body below the raise are unreachable. -/
def generate_api_key (env : KeyEnv) (authHeader : Option String) : Response :=
  match authHeader with
  | none => ⟨401, .err "No authorization token provided"⟩
  | some h =>
    if !startswith "Bearer " h then ⟨401, .err "No authorization token provided"⟩
    else
      match console_log with
      | .error e => ⟨500, .err e⟩
      | .ok _ =>
        match env.getUser (bearerToken h) with
        | none => ⟨401, .err "Invalid authorization token"⟩
        | some uid =>
          ⟨200, .keyB env.newKey "Store this API key safely. It won't be shown again." uid⟩

/-! ## Tenant Resolver (modelled from the spec)

The provided `src/flask_api.py` (421 lines) contains no host-header or
subdomain handling; the specification (which describes a 757-line source)
specifies the Tenant Resolver of its §4.2 in prose.  The definitions in
this section are therefore modelled from the specification's words, not
from code under `src/`. -/

/-- Modelled from the spec: the error taxonomy of the Tenant Resolver
(spec §4.2 and §7). -/
inductive AuthError where
  | missingCredential
  | invalidCredential
  | invalidSubdomain
  | tenantMismatch
deriving DecidableEq, Repr

/-- Modelled from the spec: the HTTP status attached to each resolver
error by the status table of §6 ("401 (missing/invalid credential), 403
(ownership/tenant mismatch)") and §4.2's "`TenantMismatch` (403
semantics)". -/
def authErrorStatus : AuthError → Nat
  | .missingCredential => 401
  | .invalidCredential => 401
  | .invalidSubdomain => 401
  | .tenantMismatch => 403

/-- Modelled from the spec: the lookups the Tenant Resolver consults —
the subdomain-to-tenant mapping, the API-key-to-tenant mapping, and the
reserved local-development host prefix of §4.2 step 1. -/
structure ResolverEnv where
  subdomainTenant : String → Option String
  keyTenant : String → Option String
  localDevPref : String

/-- Modelled from the spec (§4.2 step 1): when the host contains a dot
and does not start with the reserved local-development prefix, the
leading label is looked up in the subdomain mapping; a match yields a
host-tenant, a miss is a hard `InvalidSubdomain` failure; otherwise no
host-tenant is resolved. -/
def resolve_host_tenant (env : ResolverEnv) (host : Option String) :
    Except AuthError (Option String) :=
  match host with
  | none => .ok none
  | some h =>
    if h.data.contains '.' && !startswith env.localDevPref h then
      match env.subdomainTenant (String.mk (h.data.takeWhile (· ≠ '.'))) with
      | some t => .ok (some t)
      | none => .error .invalidSubdomain
    else .ok none

/-- Modelled from the spec (§4.2 steps 2-5): the key, when present, is
looked up (`InvalidCredential` when unknown); a resolved key-tenant and a
resolved host-tenant that differ are `TenantMismatch`; the effective
tenant is the key-tenant when present, else the host-tenant; neither
signal is `MissingCredential`. -/
def resolve_tenant (env : ResolverEnv) (host apiKey : Option String) :
    Except AuthError String :=
  match resolve_host_tenant env host with
  | .error e => .error e
  | .ok hostT =>
    match apiKey with
    | some k =>
      match env.keyTenant k with
      | none => .error .invalidCredential
      | some kt =>
        match hostT with
        | some ht => if kt = ht then .ok kt else .error .tenantMismatch
        | none => .ok kt
    | none =>
      match hostT with
      | some ht => .ok ht
      | none => .error .missingCredential

/-! ## Concrete fixtures used to evaluate the handlers -/

/-- A small parsed table: the two-row `id,name` dataset. -/
def tableFix : Table :=
  ⟨["id", "name"], [["1", "Ana"], ["2", "Bob"]], [("id", "int64"), ("name", "object")]⟩

/-- An environment whose storage serves `tableFix` for every path (the
utf-8 fallback parse succeeds) and whose key table maps `key1` to user
`1`. -/
def envData : Env where
  download := fun _ => .ok [0]
  chardetAvailable := false
  detect := fun _ => none
  parseStrict := fun _ _ => none
  parseLenient := fun enc _ =>
    if enc = "utf-8" then .ok tableFix else .error (.otherError "boom")
  keyLookup := fun k => if k = "key1" then .ok (some "1") else .ok none
  describe := fun _ => [("id", [("count", "2")])]

/-- An environment whose storage raises on every download and whose key
table maps `keyA` to user `a`. -/
def envNoStore : Env where
  download := fun _ => .error "storage error"
  chardetAvailable := false
  detect := fun _ => none
  parseStrict := fun _ _ => none
  parseLenient := fun _ _ => .error (.otherError "no data")
  keyLookup := fun k => if k = "keyA" then .ok (some "a") else .ok none
  describe := fun _ => []

/-- An environment in which chardet detects an encoding whose strict
parse fails, the first four fallback encodings fail, and utf-16 parses to
a header-only table. -/
def envUtf16 : Env where
  download := fun p => if p = "user_1/d.csv" then .ok [255, 254] else .error "404"
  chardetAvailable := true
  detect := fun _ => some "UTF-16"
  parseStrict := fun _ _ => none
  parseLenient := fun enc _ =>
    if enc = "utf-16" then .ok ⟨["id", "name"], [], [("id", "object"), ("name", "object")]⟩
    else .error (.unicodeDecodeError "invalid start byte")
  keyLookup := fun _ => .ok none
  describe := fun _ => []

/-- An environment in which every decode attempt fails. -/
def envAllFail : Env where
  download := fun _ => .ok [200, 201]
  chardetAvailable := true
  detect := fun _ => some "Windows-1254"
  parseStrict := fun _ _ => none
  parseLenient := fun enc _ => .error (.unicodeDecodeError ("cannot decode with " ++ enc))
  keyLookup := fun _ => .ok none
  describe := fun _ => []

/-- A key-issuance environment whose credential store accepts exactly the
token `tok123`, resolving it to `user-9`. -/
def keyEnvFix : KeyEnv := ⟨fun t => if t = "tok123" then some "user-9" else none, "freshkey"⟩

/-- A resolver environment (for the spec-modelled Tenant Resolver):
subdomain `acme` belongs to tenant `T2`, API key `k1` to tenant `T1`. -/
def resolverFix : ResolverEnv :=
  ⟨fun s => if s = "acme" then some "T2" else none,
   fun k => if k = "k1" then some "T1" else none,
   "localhost"⟩

/-- A handler that echoes the resolved user id, used to observe what the
decorator passes through. -/
def echoHandler : String → Outcome := fun u => .resp ⟨200, .err u⟩

/-! ## Helper lemmas -/

/-- When neither side contains a slash and the names differ, appending a
slash to the first can never be a prefix of the second followed by a
slash and more. -/
theorem slash_sep_not_prefix (a : List Char) :
    ∀ b rest : List Char, '/' ∉ a → '/' ∉ b → a ≠ b →
      ¬ (a ++ ['/'] <+: b ++ '/' :: rest) := by
  induction a with
  | nil =>
    intro b rest _ hb hne h
    cases b with
    | nil => exact hne rfl
    | cons y b' =>
      rw [List.nil_append, List.cons_append, List.cons_prefix_cons] at h
      exact hb (h.1 ▸ List.mem_cons_self y b')
  | cons x a' ih =>
    intro b rest ha hb hne h
    cases b with
    | nil =>
      rw [List.cons_append, List.nil_append, List.cons_prefix_cons] at h
      exact ha (h.1 ▸ List.mem_cons_self x a')
    | cons y b' =>
      rw [List.cons_append, List.cons_append, List.cons_prefix_cons] at h
      refine ih b' rest (fun hm => ha (List.mem_cons_of_mem x hm))
        (fun hm => hb (List.mem_cons_of_mem y hm)) (fun he => hne ?_) h.2
      rw [h.1, he]

/-- The ownership check rejects a path namespaced under a different
tenant, provided neither tenant identifier contains a slash. -/
theorem ownsPath_foreign_false (t1 t2 f : String)
    (h1 : '/' ∉ t1.data) (h2 : '/' ∉ t2.data) (hne : t1 ≠ t2) :
    ownsPath t1 ("user_" ++ t2 ++ "/" ++ f) = false := by
  have hd : t1.data ≠ t2.data := fun h =>
    hne (by cases t1; cases t2; exact congrArg String.mk h)
  rw [ownsPath, startswith]
  rw [Bool.eq_false_iff]
  intro h
  rw [List.isPrefixOf_iff_prefix] at h
  have heq : ("user_" ++ t2 ++ "/" ++ f).data =
      "user_".data ++ (t2.data ++ '/' :: f.data) := by
    simp [String.data_append]
  have heq1 : ("user_" ++ t1 ++ "/").data = "user_".data ++ (t1.data ++ ['/']) := by
    simp [String.data_append]
  rw [heq, heq1, List.prefix_append_right_inj] at h
  exact slash_sep_not_prefix t1.data t2.data f.data h1 h2 hd h

/-- The fallback loop returns the table of the first encoding that
parses, whatever errors were accumulated before it. -/
theorem fallback_loop_first_success (env : Env) (bytes : ByteData)
    (pre : List String) (enc : String) (rest : List String) (t : Table)
    (hfail : ∀ e ∈ pre, ∃ er, env.parseLenient e bytes = .error er)
    (hok : env.parseLenient enc bytes = .ok t) :
    ∀ errs, (fallback_loop env bytes (pre ++ enc :: rest) errs).1 = some t := by
  induction pre with
  | nil => intro errs; simp [fallback_loop, hok]
  | cons e pre ih =>
    intro errs
    obtain ⟨er, her⟩ := hfail e (List.mem_cons_self e pre)
    rw [List.cons_append]
    simp only [fallback_loop, her]
    exact ih (fun e' he' => hfail e' (List.mem_cons_of_mem e he')) _

/-- When every encoding of the list fails, the fallback loop returns no
table and appends the formatted error of each attempt, in list order. -/
theorem fallback_loop_all_fail (env : Env) (bytes : ByteData)
    (errf : String → ParseErr) :
    ∀ l : List String, (∀ e ∈ l, env.parseLenient e bytes = .error (errf e)) →
      ∀ errs, fallback_loop env bytes l errs =
        (none, errs ++ l.map (fun e => formatAttemptErr e (errf e))) := by
  intro l
  induction l with
  | nil => intro _ errs; simp [fallback_loop]
  | cons e l ih =>
    intro hfail errs
    simp only [fallback_loop, hfail e (List.mem_cons_self e l)]
    rw [ih (fun e' he' => hfail e' (List.mem_cons_of_mem e he')) _]
    simp

/-- Over a dot-free pattern, the anchored matcher is exactly a
case-insensitive prefix test. -/
theorem matchesFrom_no_meta (p : List Char) (hp : '.' ∉ p) :
    ∀ s, matchesFrom p s = (p.map Char.toLower).isPrefixOf (s.map Char.toLower) := by
  induction p with
  | nil => intro s; simp [matchesFrom, List.isPrefixOf]
  | cons c p ih =>
    intro s
    have hc : (c == '.') = false := by
      rw [beq_eq_false_iff_ne]
      exact fun h => hp (h ▸ List.mem_cons_self c p)
    cases s with
    | nil => simp [matchesFrom, List.isPrefixOf]
    | cons d s =>
      simp only [matchesFrom, List.map_cons, List.isPrefixOf, hc, Bool.false_or]
      rw [ih (fun h => hp (List.mem_cons_of_mem c h)) s]

/-- Over a dot-free pattern, the unanchored search is exactly a
case-insensitive substring test. -/
theorem reSearch_no_meta (p : List Char) (hp : '.' ∉ p) :
    ∀ s, reSearch p s = isSubseg (p.map Char.toLower) (s.map Char.toLower) := by
  intro s
  induction s with
  | nil =>
    rw [reSearch, matchesFrom_no_meta p hp]
    cases p <;> simp [isSubseg, List.isPrefixOf]
  | cons c s ih =>
    rw [reSearch, matchesFrom_no_meta p hp, List.map_cons, isSubseg, ih]

/-- For a value containing no Python regex metacharacter, the cell
predicate of `filter_data` coincides with case-insensitive substring
containment. -/
theorem str_contains_literal (value : String)
    (hv : ∀ ch ∈ value.data, ch ∉ regexMetachars) :
    ∀ cell, str_contains value cell = containsCI value cell := by
  intro cell
  have hdot : '.' ∉ value.data := fun h => hv '.' h (by decide)
  exact reSearch_no_meta value.data hdot cell.data

/-! ## Claim theorems -/

/-- C9: on an API-key-protected endpoint, a request with no `X-API-Key`
header fails 401 `MissingCredential` before the handler runs (for every
handler); a nonempty key not found in the credential store fails 401
`InvalidCredential`; a found key runs the handler bound to exactly the
user id the key maps to. -/
theorem require_api_key_spec (env : Env) (req : Request) (h0 : String → Outcome) :
    (req.apiKey = none →
      require_api_key env req h0 = .resp ⟨401, .err "No API key provided"⟩) ∧
    (∀ k, req.apiKey = some k → k.isEmpty = false → env.keyLookup k = .ok none →
      require_api_key env req h0 = .resp ⟨401, .err "Invalid API key"⟩) ∧
    (∀ k uid, req.apiKey = some k → k.isEmpty = false →
      env.keyLookup k = .ok (some uid) → require_api_key env req h0 = h0 uid) := by
  refine ⟨fun h => by simp [require_api_key, h],
    fun k hk hke hl => by simp [require_api_key, hk, hke, hl],
    fun k uid hk hke hl => by simp [require_api_key, hk, hke, hl]⟩

/-- Witness for C9: the three decorator outcomes at concrete requests
against `envData` (whose key table contains only `key1 ↦ 1`). -/
theorem require_api_key_spec_witness :
    require_api_key envData ⟨none, none, none, none, none⟩ echoHandler =
      .resp ⟨401, .err "No API key provided"⟩ ∧
    require_api_key envData ⟨some "wrong", none, none, none, none⟩ echoHandler =
      .resp ⟨401, .err "Invalid API key"⟩ ∧
    require_api_key envData ⟨some "key1", none, none, none, none⟩ echoHandler =
      echoHandler "1" :=
  ⟨(require_api_key_spec envData ⟨none, none, none, none, none⟩ echoHandler).1 rfl,
   (require_api_key_spec envData ⟨some "wrong", none, none, none, none⟩ echoHandler).2.1
     "wrong" rfl (by decide) rfl,
   (require_api_key_spec envData ⟨some "key1", none, none, none, none⟩ echoHandler).2.2
     "key1" "1" rfl (by decide) rfl⟩

/-- C2 counterexample: tenant identifiers are opaque strings, and for
`T1 = "a"`, `T2 = "a/b"`, `f = "x.csv"` — distinct tenants — the request
by `T1` for `user_{T2}/f = "user_a/b/x.csv"` passes the prefix check and
is NOT rejected with 403: against a store where the object does not exist
it yields the 404 dataset-not-found response. -/
theorem ownership_slash_tenant_counterexample :
    ("a" : String) ≠ "a/b" ∧
    get_data_summary envNoStore ⟨some "keyA", some "user_a/b/x.csv", none, none, none⟩ =
      .resp ⟨404, .err "No dataset found in Supabase storage"⟩ := by
  exact ⟨by decide, by decide⟩

/-- C2 (amended): provided tenant identifiers contain no `/`, a request
authenticated as tenant `t1` for the path `user_{t2}/f` of a distinct
tenant `t2` is rejected 403 by both `summary` and `head`, for every
storage state; and in general any path failing the `user_{uid}/` prefix
check is answered 403 by the handler body. -/
theorem ownership_rejects_foreign_tenant (env : Env) (req : Request)
    (k t1 t2 f : String)
    (hk : req.apiKey = some k) (hke : k.isEmpty = false)
    (hl : env.keyLookup k = .ok (some t1))
    (hbp : req.bucket_path = some ("user_" ++ t2 ++ "/" ++ f))
    (h1 : '/' ∉ t1.data) (h2 : '/' ∉ t2.data) (hne : t1 ≠ t2) :
    get_data_summary env req = .resp ⟨403, .err "Unauthorized access to dataset"⟩ ∧
    get_head env req = .resp ⟨403, .err "Unauthorized access to dataset"⟩ ∧
    (∀ uid path r', ownsPath uid path = false →
      r' = Request.mk req.apiKey (some path) req.column req.value req.n →
      get_data_summary_body env r' uid =
        .resp ⟨403, .err "Unauthorized access to dataset"⟩) := by
  have hown := ownsPath_foreign_false t1 t2 f h1 h2 hne
  refine ⟨?_, ?_, fun uid path r' ho hr' => ?_⟩
  · simp [get_data_summary, require_api_key, hk, hke, hl, get_data_summary_body, hbp, hown]
  · simp [get_head, require_api_key, hk, hke, hl, get_head_body, hbp, hown]
  · subst hr'; simp [get_data_summary_body, ho]

/-- Witness for C2: tenant `a` (key `keyA`) requesting `user_b/x.csv` is
rejected 403 by both endpoints. -/
theorem ownership_rejects_foreign_tenant_witness :
    get_data_summary envNoStore ⟨some "keyA", some "user_b/x.csv", none, none, none⟩ =
      .resp ⟨403, .err "Unauthorized access to dataset"⟩ ∧
    get_head envNoStore ⟨some "keyA", some "user_b/x.csv", none, none, none⟩ =
      .resp ⟨403, .err "Unauthorized access to dataset"⟩ :=
  ⟨(ownership_rejects_foreign_tenant envNoStore
      ⟨some "keyA", some "user_b/x.csv", none, none, none⟩ "keyA" "a" "b" "x.csv"
      rfl (by decide) rfl rfl (by decide) (by decide) (by decide)).1,
   (ownership_rejects_foreign_tenant envNoStore
      ⟨some "keyA", some "user_b/x.csv", none, none, none⟩ "keyA" "a" "b" "x.csv"
      rfl (by decide) rfl rfl (by decide) (by decide) (by decide)).2.1⟩

/-- C6 counterexample: a request with the valid key `keyA` and no
`bucket_path` makes the handler raise `AttributeError` on
`None.startswith` — an unhandled exception, not the 400 response
`{"error": "bucket_path parameter is required"}` (that string appears
nowhere in the program). -/
theorem summary_missing_bucket_path_counterexample :
    get_data_summary envNoStore ⟨some "keyA", none, none, none, none⟩ =
      .unhandled attributeErrorNone ∧
    get_data_summary envNoStore ⟨some "keyA", none, none, none, none⟩ ≠
      .resp ⟨400, .err "bucket_path parameter is required"⟩ := by
  exact ⟨by decide, by decide⟩

/-- C6 (amended): with a valid API key and no `bucket_path`, the summary
handler lets an `AttributeError` escape (`None` has no `startswith`),
which the framework surfaces as a 500, not as a 400 bad-input
response. -/
theorem summary_missing_bucket_path_unhandled (env : Env) (req : Request) (k uid : String)
    (hk : req.apiKey = some k) (hke : k.isEmpty = false)
    (hl : env.keyLookup k = .ok (some uid)) (hbp : req.bucket_path = none) :
    get_data_summary env req = .unhandled attributeErrorNone := by
  simp [get_data_summary, require_api_key, hk, hke, hl, get_data_summary_body, hbp]

/-- Witness for C6: the concrete unhandled-exception outcome. -/
theorem summary_missing_bucket_path_unhandled_witness :
    get_data_summary envNoStore ⟨some "keyA", none, none, none, none⟩ =
      .unhandled attributeErrorNone :=
  summary_missing_bucket_path_unhandled envNoStore
    ⟨some "keyA", none, none, none, none⟩ "keyA" "a" rfl (by decide) rfl rfl

/-- C1 counterexample: a request with NO credential at all (`apiKey =
none`) against the filter and stats endpoints is served table data:
`filter_data` returns the matching row of the stored dataset and
`get_stats` returns its statistics, with no authorization decision of any
kind. -/
theorem filter_stats_exposed_without_credential :
    filter_data envData ⟨none, some "user_1/d.csv", some "name", some "an", none⟩ =
      .resp ⟨200, .records [[("id", "1"), ("name", "Ana")]]⟩ ∧
    get_stats envData ⟨none, some "user_1/d.csv", none, none, none⟩ =
      .resp ⟨200, .statsB [("id", [("count", "2")])]⟩ := by
  exact ⟨by decide, by decide⟩

/-- C1 (amended): only `summary` and `head` run the authorization guard
(API-key resolution then the path-ownership check) before loading;
`filter`, `stats` and `unique` perform no credential or ownership check:
`stats` serves data to a credential-less request, and the outcomes of
`filter` and `unique` are independent of the API key header. -/
theorem guard_summary_head_only (env : Env) (req : Request) (k uid path : String)
    (df : Table) :
    (req.apiKey = some k → k.isEmpty = false → env.keyLookup k = .ok (some uid) →
     req.bucket_path = some path → ownsPath uid path = false →
     get_data_summary env req = .resp ⟨403, .err "Unauthorized access to dataset"⟩ ∧
     get_head env req = .resp ⟨403, .err "Unauthorized access to dataset"⟩) ∧
    (req.apiKey = none → load_csv_from_supabase env req.bucket_path = some df →
     get_stats env req = .resp ⟨200, .statsB (env.describe df)⟩) ∧
    (∀ a1 a2, filter_data env ⟨a1, req.bucket_path, req.column, req.value, req.n⟩ =
      filter_data env ⟨a2, req.bucket_path, req.column, req.value, req.n⟩) ∧
    (∀ a1 a2 c, get_unique_values env ⟨a1, req.bucket_path, req.column, req.value, req.n⟩ c =
      get_unique_values env ⟨a2, req.bucket_path, req.column, req.value, req.n⟩ c) := by
  refine ⟨fun hk hke hl hbp hown => ?_, fun hk hload => ?_, fun a1 a2 => rfl,
    fun a1 a2 c => rfl⟩
  · constructor
    · simp [get_data_summary, require_api_key, hk, hke, hl, get_data_summary_body, hbp, hown]
    · simp [get_head, require_api_key, hk, hke, hl, get_head_body, hbp, hown]
  · simp [get_stats, hload]

/-- Witness for C1: the guarded endpoints reject a foreign path for key
`key1` (user `1`), while `stats` serves the same dataset to a
credential-less request. -/
theorem guard_summary_head_only_witness :
    get_data_summary envData ⟨some "key1", some "user_2/d.csv", none, none, none⟩ =
      .resp ⟨403, .err "Unauthorized access to dataset"⟩ ∧
    get_stats envData ⟨none, some "user_2/d.csv", none, none, none⟩ =
      .resp ⟨200, .statsB (envData.describe tableFix)⟩ :=
  ⟨((guard_summary_head_only envData ⟨some "key1", some "user_2/d.csv", none, none, none⟩
      "key1" "1" "user_2/d.csv" tableFix).1 rfl (by decide) rfl rfl (by decide)).1,
   (guard_summary_head_only envData ⟨none, some "user_2/d.csv", none, none, none⟩
      "key1" "1" "user_2/d.csv" tableFix).2.1 rfl (by decide)⟩

/-- C10: `GET /api/data/filter` with no `bucket_path` answers 404
dataset-not-found (not a 400 missing-parameter error) whatever the
`column` and `value` parameters are, and the loader returns `None` for a
`None` path under every storage function — storage is never
contacted. -/
theorem filter_missing_bucket_path_404 (env : Env) (a c v : Option String)
    (n : Option Int) (d : String → Except String ByteData) :
    filter_data env ⟨a, none, c, v, n⟩ =
      .resp ⟨404, .err "No dataset found in Supabase storage"⟩ ∧
    load_csv_from_supabase
      { env with download := d } none = none := by
  exact ⟨rfl, rfl⟩

/-- C4: when the detection phase yields nothing, the loader walks the
fixed fallback list — exactly `utf-8, latin1, iso-8859-1, cp1252, utf-16,
ascii` — and returns the table of the first encoding that parses (with no
condition on its rows: a header-only table is returned just the same);
and the result is a function of the downloaded bytes alone — any path
serving the same bytes yields the same result. -/
theorem load_first_fallback_success (env : Env) (path : String) (bytes : ByteData)
    (pre rest : List String) (enc : String) (t : Table)
    (hdl : env.download path = .ok bytes)
    (hdet : detect_phase env bytes = none)
    (hsplit : fallbackEncodings = pre ++ enc :: rest)
    (hfail : ∀ e ∈ pre, ∃ er, env.parseLenient e bytes = .error er)
    (hok : env.parseLenient enc bytes = .ok t) :
    load_csv_from_supabase env (some path) = some t ∧
    fallbackEncodings = ["utf-8", "latin1", "iso-8859-1", "cp1252", "utf-16", "ascii"] ∧
    (∀ q, env.download q = .ok bytes →
      load_csv_from_supabase env (some q) = load_csv_from_supabase env (some path)) := by
  refine ⟨?_, rfl, fun q hq => ?_⟩
  · simp only [load_csv_from_supabase, hdl, decode_bytes, hdet, hsplit]
    exact fallback_loop_first_success env bytes pre enc rest t hfail hok []
  · simp only [load_csv_from_supabase, hq, hdl]

/-- Witness for C4: against `envUtf16` (detected parse fails, the first
four fallback encodings fail), the loader returns the utf-16 parse — a
header-only table with zero data rows. -/
theorem load_first_fallback_success_witness :
    load_csv_from_supabase envUtf16 (some "user_1/d.csv") =
      some ⟨["id", "name"], [], [("id", "object"), ("name", "object")]⟩ ∧
    (⟨["id", "name"], [], [("id", "object"), ("name", "object")]⟩ : Table).rows = [] :=
  ⟨(load_first_fallback_success envUtf16 "user_1/d.csv" [255, 254]
      ["utf-8", "latin1", "iso-8859-1", "cp1252"] ["ascii"] "utf-16"
      ⟨["id", "name"], [], [("id", "object"), ("name", "object")]⟩
      rfl rfl rfl
      (by
        intro e he
        refine ⟨.unicodeDecodeError "invalid start byte", ?_⟩
        simp only [List.mem_cons, List.mem_singleton] at he
        rcases he with rfl | rfl | rfl | rfl | h <;> first | rfl | exact absurd h (by simp))
      rfl).1,
   rfl⟩

/-- C7 counterexample: when every decode attempt fails the loader returns
the bare `None` — a value carrying no (encoding, error) pairs — and the
caller (here the stats endpoint) can only answer the generic 404
dataset-not-found: the attempted-encodings diagnostics never reach the
caller. -/
theorem decode_failure_returns_none_counterexample :
    load_csv_from_supabase envAllFail (some "user_1/d.csv") = none ∧
    get_stats envAllFail ⟨none, some "user_1/d.csv", none, none, none⟩ =
      .resp ⟨404, .err "No dataset found in Supabase storage"⟩ := by
  exact ⟨by decide, by decide⟩

/-- C7 (amended): when the detection phase yields nothing and every
fallback encoding fails, the loader returns `None`, and the ordered
(encoding, error) list of the attempts is accumulated only in the
printed error log (lines 408-410), formatted per attempt as the source
formats it. -/
theorem decode_failure_errors_logged_not_returned (env : Env) (bytes : ByteData)
    (errf : String → ParseErr)
    (hdet : detect_phase env bytes = none)
    (hfail : ∀ e ∈ fallbackEncodings, env.parseLenient e bytes = .error (errf e)) :
    decode_bytes env bytes = none ∧
    decode_error_log env bytes =
      fallbackEncodings.map (fun e => formatAttemptErr e (errf e)) := by
  have h := fallback_loop_all_fail env bytes errf fallbackEncodings hfail []
  constructor
  · simp only [decode_bytes, hdet, h]
  · simp only [decode_error_log, h, List.nil_append]

/-- Witness for C7: the six attempts against `envAllFail`, in fallback
order, each formatted as `"{encoding}: {error}"`; the decode result is
`none`. -/
theorem decode_failure_errors_logged_not_returned_witness :
    decode_bytes envAllFail [200, 201] = none ∧
    decode_error_log envAllFail [200, 201] =
      ["utf-8: cannot decode with utf-8",
       "latin1: cannot decode with latin1",
       "iso-8859-1: cannot decode with iso-8859-1",
       "cp1252: cannot decode with cp1252",
       "utf-16: cannot decode with utf-16",
       "ascii: cannot decode with ascii"] := by
  have h := decode_failure_errors_logged_not_returned envAllFail [200, 201]
    (fun e => .unicodeDecodeError ("cannot decode with " ++ e)) rfl (fun e _ => rfl)
  exact ⟨h.1, h.2.trans (by decide)⟩

/-- C8 counterexample: `str.contains` interprets the value as a regular
expression, not a literal substring: with value `"a.c"` the row whose
`name` cell is `"abc"` is returned (the `.` matched `b`), although
`"abc"` does not contain `"a.c"` as a case-insensitive substring. -/
theorem filter_regex_counterexample :
    filter_data envData ⟨none, some "user_1/d.csv", some "name", some "A.a", none⟩ =
      .resp ⟨200, .records [[("id", "1"), ("name", "Ana")]]⟩ ∧
    containsCI "A.a" "Ana" = false := by
  exact ⟨by decide, by decide⟩

/-- C8 (amended): the value is matched as a case-insensitive regular
expression; for a value free of regex metacharacters this is exactly
case-insensitive substring containment, and `filter_data` then returns
precisely the first 50 rows (in order) whose cell in the selected column
contains the value, as records; an unknown column is a 400 naming the
column. -/
theorem filter_literal_substring_semantics (env : Env) (req : Request) (df : Table)
    (column value : String) :
    (load_csv_from_supabase env req.bucket_path = some df →
     req.column = some column → req.value = some value →
     column.isEmpty = false → value.isEmpty = false →
     df.columns.contains column = true →
     (∀ ch ∈ value.data, ch ∉ regexMetachars) →
     filter_data env req = .resp ⟨200, .records (((df.rows.filter
       (fun r => containsCI value (cellAt df column r))).take 50).map (rowRecord df))⟩) ∧
    (load_csv_from_supabase env req.bucket_path = some df →
     req.column = some column → req.value = some value →
     column.isEmpty = false → value.isEmpty = false →
     df.columns.contains column = false →
     filter_data env req = .resp ⟨400, .err ("Column '" ++ column ++ "' not found")⟩) := by
  constructor
  · intro hload hc hv hce hve hmem hlit
    simp only [filter_data, hload, hc, hv, pyFalsy, hce, hve, Bool.or_self,
      Bool.false_eq_true, if_false, Option.getD_some, hmem, Bool.not_true,
      str_contains_literal value hlit]
  · intro hload hc hv hce hve hmem
    simp only [filter_data, hload, hc, hv, pyFalsy, hce, hve, Bool.or_self,
      Bool.false_eq_true, if_false, Option.getD_some, hmem, Bool.not_false, if_true]

/-- Witness for C8: the literal value `"bo"` selects exactly the `Bob`
row of the fixture table, and the unknown column `age` is answered
`400 Column 'age' not found`. -/
theorem filter_literal_substring_semantics_witness :
    filter_data envData ⟨none, some "user_1/d.csv", some "name", some "bo", none⟩ =
      .resp ⟨200, .records [[("id", "2"), ("name", "Bob")]]⟩ ∧
    filter_data envData ⟨none, some "user_1/d.csv", some "age", some "bo", none⟩ =
      .resp ⟨400, .err "Column 'age' not found"⟩ := by
  constructor
  · have h := (filter_literal_substring_semantics envData
      ⟨none, some "user_1/d.csv", some "name", some "bo", none⟩ tableFix "name" "bo").1
      (by decide) rfl rfl (by decide) (by decide) (by decide) (by decide)
    exact h.trans (by decide)
  · exact (filter_literal_substring_semantics envData
      ⟨none, some "user_1/d.csv", some "age", some "bo", none⟩ tableFix "age" "bo").2
      (by decide) rfl rfl (by decide) (by decide) (by decide)

/-- C5: the failing input is any well-formed `Authorization: Bearer`
header whose token the credential store accepts: line 59
(`console.log(token)`, JavaScript left in the Python source) raises
`NameError` before the token is ever exchanged, so the route answers
`500 {"error": "name 'console' is not defined"}` instead of the
documented `{api_key, message, user_id}` success body (the success
construction at lines 75-79 is unreachable).  A missing header still gets
the intended 401. -/
theorem generate_key_console_log_bug :
    generate_api_key keyEnvFix (some "Bearer tok123") =
      ⟨500, .err "name 'console' is not defined"⟩ ∧
    keyEnvFix.getUser (bearerToken "Bearer tok123") = some "user-9" ∧
    generate_api_key keyEnvFix none = ⟨401, .err "No authorization token provided"⟩ ∧
    generate_api_key keyEnvFix (some "Basic xyz") =
      ⟨401, .err "No authorization token provided"⟩ := by
  exact ⟨by decide, by decide, by decide, by decide⟩

/-- C3 (modelled from the spec): a valid API key resolving to `t1`
together with a host whose subdomain resolves to `t2 ≠ t1` fails with
`TenantMismatch`, whose HTTP status is 403, whatever the other
parameters; and the effective tenant of a request is the key-tenant when
present (and consistent), else the host-tenant. -/
theorem tenant_mismatch_resolution (env : ResolverEnv) (h k t1 t2 : String)
    (hk : env.keyTenant k = some t1)
    (hh : resolve_host_tenant env (some h) = .ok (some t2))
    (hne : t1 ≠ t2) :
    resolve_tenant env (some h) (some k) = .error .tenantMismatch ∧
    authErrorStatus .tenantMismatch = 403 ∧
    (∀ host' k' t, env.keyTenant k' = some t →
      resolve_host_tenant env host' = .ok none →
      resolve_tenant env host' (some k') = .ok t) ∧
    (∀ host' k' t, env.keyTenant k' = some t →
      resolve_host_tenant env host' = .ok (some t) →
      resolve_tenant env host' (some k') = .ok t) ∧
    (∀ host' t, resolve_host_tenant env host' = .ok (some t) →
      resolve_tenant env host' none = .ok t) := by
  refine ⟨?_, rfl, fun host' k' t hk' hh' => ?_, fun host' k' t hk' hh' => ?_,
    fun host' t hh' => ?_⟩
  · simp [resolve_tenant, hh, hk, hne]
  · simp [resolve_tenant, hh', hk']
  · simp [resolve_tenant, hh', hk']
  · simp [resolve_tenant, hh']

/-- Witness for C3: key `k1` (tenant `T1`) sent to host
`acme.example.com` (subdomain tenant `T2`) is a `TenantMismatch`; the
same key with no host signal acts as `T1`, and the bare host signal acts
as `T2`. -/
theorem tenant_mismatch_resolution_witness :
    resolve_tenant resolverFix (some "acme.example.com") (some "k1") =
      .error .tenantMismatch ∧
    resolve_tenant resolverFix none (some "k1") = .ok "T1" ∧
    resolve_tenant resolverFix (some "acme.example.com") none = .ok "T2" := by
  have h := tenant_mismatch_resolution resolverFix "acme.example.com" "k1" "T1" "T2"
    rfl rfl (by decide)
  exact ⟨h.1, h.2.2.1 none "k1" "T1" rfl rfl, h.2.2.2.2 (some "acme.example.com") "T2" rfl⟩

end FlaskApi
